import Mathlib

/-!
Shallow embedding of the chunk-streaming and procedural-generation core of
the `chivalryII` PC app (`src/apps/pc/src/world/`), together with theorems
settling the frozen claims about it.

Modelling conventions:
* Rust `i32`/`usize` values are modelled as `Int`/`Nat`.
* Rust `f32`/`f64` arithmetic is modelled over `Rat`; the concrete inputs
  used in counterexamples and witnesses are chosen so that every float
  operation involved is exact, hence the rational model agrees with the
  float computation there.
* `value as i32` / `value as usize` casts (truncation toward zero,
  saturating at 0 for `usize`) are modelled by `ratTruncToInt` and
  `ratTruncToNat`.
* The `noise::Perlin` sampler and the `f32` trigonometry of `bevy`'s
  `Vec2::from_angle`/`to_angle` are external library code; they are taken
  as parameters (a function `Rat → Rat → Rat`, resp. a `Geom` record),
  constrained only by their documented range where a claim needs it.
* `rand::thread_rng()` draws are modelled by an explicit stream of draw
  results (`Rng`), consumed one value per `gen`/`gen_range` call, so that
  the dependence of a result on the OS-seeded generator is visible.
-/

/-- Truncation of a rational toward zero, the semantics of Rust's
`expr as i32` cast on an in-range value. -/
def ratTruncToInt (q : Rat) : Int :=
  if q < 0 then -⌊-q⌋ else ⌊q⌋

/-- Truncation of a rational toward zero clamped at 0, the semantics of
Rust's `expr as usize` cast on an in-range value. -/
def ratTruncToNat (q : Rat) : Nat :=
  (ratTruncToInt q).toNat

/-- Chunk grid address, from `ChunkCoord` in `chunk_manager.rs`
(integer `x`, `y`; exact equality). -/
structure ChunkCoord where
  x : Int
  y : Int
deriving DecidableEq, Repr

/-- Manhattan distance between two chunk coordinates, from
`manhattan_distance` in `chunk_loader.rs`:
`(a.x - b.x).abs() + (a.y - b.y).abs()`. -/
def manhattan_distance (a b : ChunkCoord) : Int :=
  (a.x - b.x).natAbs + (a.y - b.y).natAbs

/-- Chunk side length, from `pub const CHUNK_SIZE: usize = 32` in
`chunk/mod.rs`. -/
def CHUNK_SIZE : Nat := 32

/-- Per-chunk content arrays, from `ChunkData` in `chunk_manager.rs`.
`tiles` and `decorations` hold `Option<u8>` entries (bytes as `Nat`);
`heights` holds `f32` entries modelled by their IEEE-754 bit patterns
(a `Nat < 2^32`), which is the representation `bincode` serializes, and
in which the bit pattern of `0.0` is `0`. -/
structure ChunkData where
  tiles : List (Option Nat)
  heights : List Nat
  decorations : List (Option Nat)
  modified : Bool
deriving DecidableEq, Repr

namespace ChunkData

/-- Fresh chunk data, from `ChunkData::new`: three `CHUNK_SIZE²`-element
arrays (`None` tiles, `0.0` heights, `None` decorations), not modified. -/
def new : ChunkData :=
  { tiles := List.replicate (CHUNK_SIZE * CHUNK_SIZE) none
    heights := List.replicate (CHUNK_SIZE * CHUNK_SIZE) 0
    decorations := List.replicate (CHUNK_SIZE * CHUNK_SIZE) none
    modified := false }

/-- Tile accessor, from `ChunkData::get_tile`: in bounds it reads
`tiles[y*CHUNK_SIZE+x]`, out of bounds it returns `None`. -/
def get_tile (d : ChunkData) (x y : Nat) : Option Nat :=
  if x < CHUNK_SIZE ∧ y < CHUNK_SIZE then
    (d.tiles.getD (y * CHUNK_SIZE + x) none)
  else
    none

/-- Tile mutator, from `ChunkData::set_tile`: writes
`Some(tile_type)` at `y*CHUNK_SIZE+x` in bounds, does nothing out of
bounds. -/
def set_tile (d : ChunkData) (x y : Nat) (tile_type : Nat) : ChunkData :=
  if x < CHUNK_SIZE ∧ y < CHUNK_SIZE then
    { d with tiles := d.tiles.set (y * CHUNK_SIZE + x) (some tile_type) }
  else
    d

/-- Height accessor, from `ChunkData::get_height`: in bounds it reads
`heights[y*CHUNK_SIZE+x]`, out of bounds it returns `0.0` (bit pattern
`0`). -/
def get_height (d : ChunkData) (x y : Nat) : Nat :=
  if x < CHUNK_SIZE ∧ y < CHUNK_SIZE then
    (d.heights.getD (y * CHUNK_SIZE + x) 0)
  else
    0

/-- Height mutator, from `ChunkData::set_height`: writes the height at
`y*CHUNK_SIZE+x` in bounds, does nothing out of bounds. -/
def set_height (d : ChunkData) (x y : Nat) (height : Nat) : ChunkData :=
  if x < CHUNK_SIZE ∧ y < CHUNK_SIZE then
    { d with heights := d.heights.set (y * CHUNK_SIZE + x) height }
  else
    d

/-- Decoration mutator, from `ChunkData::add_decoration`: writes
`Some(decoration_type)` at `y*CHUNK_SIZE+x` in bounds, does nothing out
of bounds. -/
def add_decoration (d : ChunkData) (x y : Nat) (decoration_type : Nat) : ChunkData :=
  if x < CHUNK_SIZE ∧ y < CHUNK_SIZE then
    { d with decorations := d.decorations.set (y * CHUNK_SIZE + x) (some decoration_type) }
  else
    d

/-- Decoration accessor, from `ChunkData::get_decoration`: in bounds it
reads `decorations[y*CHUNK_SIZE+x]`, out of bounds it returns `None`. -/
def get_decoration (d : ChunkData) (x y : Nat) : Option Nat :=
  if x < CHUNK_SIZE ∧ y < CHUNK_SIZE then
    (d.decorations.getD (y * CHUNK_SIZE + x) none)
  else
    none

end ChunkData

/-- Little-endian fixed-width encoding of a `u64` into 8 bytes, the
layout `bincode 1.x` (legacy/fixint configuration, as used by
`bincode::serialize` in `save_chunk_data`) uses for `Vec` lengths. -/
def encodeU64LE (n : Nat) : List Nat :=
  [n % 256, n / 256 % 256, n / 65536 % 256, n / 16777216 % 256,
    n / 4294967296 % 256, n / 1099511627776 % 256,
    n / 281474976710656 % 256, n / 72057594037927936 % 256]

/-- Decoding of a little-endian 8-byte `u64`; fails when fewer than 8
bytes remain. -/
def decodeU64LE : List Nat → Option (Nat × List Nat)
  | b0 :: b1 :: b2 :: b3 :: b4 :: b5 :: b6 :: b7 :: rest =>
    some (b0 + 256 * (b1 + 256 * (b2 + 256 * (b3 + 256 * (b4 + 256 * (b5 + 256 *
      (b6 + 256 * b7)))))), rest)
  | _ => none

/-- Little-endian 4-byte encoding of an `f32` by its IEEE-754 bit
pattern (`bincode` serializes the raw bits). -/
def encodeF32LE (n : Nat) : List Nat :=
  [n % 256, n / 256 % 256, n / 65536 % 256, n / 16777216 % 256]

/-- Decoding of a little-endian 4-byte `f32` bit pattern. -/
def decodeF32LE : List Nat → Option (Nat × List Nat)
  | b0 :: b1 :: b2 :: b3 :: rest =>
    some (b0 + 256 * (b1 + 256 * (b2 + 256 * b3)), rest)
  | _ => none

/-- Encoding of an `Option<u8>`: tag byte `0` for `None`, tag byte `1`
followed by the value for `Some` (serde/bincode layout). -/
def encodeOptU8 : Option Nat → List Nat
  | none => [0]
  | some v => [1, v]

/-- Decoding of an `Option<u8>`: rejects any tag other than `0`/`1`. -/
def decodeOptU8 : List Nat → Option (Option Nat × List Nat)
  | 0 :: rest => some (none, rest)
  | 1 :: v :: rest => some (some v, rest)
  | _ => none

/-- Encoding of a `bool` as one byte (`bincode` layout). -/
def encodeBool : Bool → List Nat
  | false => [0]
  | true => [1]

/-- Decoding of a `bool` byte: rejects any value other than `0`/`1`. -/
def decodeBool : List Nat → Option (Bool × List Nat)
  | 0 :: rest => some (false, rest)
  | 1 :: rest => some (true, rest)
  | _ => none

/-- Encoding of a `Vec<T>`: the `u64` element count followed by the
encodings of the elements in order (`bincode` layout). -/
def encodeListWith {α : Type} (enc : α → List Nat) (xs : List α) : List Nat :=
  encodeU64LE xs.length ++ (xs.map enc).flatten

/-- Decoding of exactly `n` consecutive elements; fails as soon as one
element fails. -/
def decodeCount {α : Type} (dec : List Nat → Option (α × List Nat)) :
    Nat → List Nat → Option (List α × List Nat)
  | 0, bytes => some ([], bytes)
  | n + 1, bytes =>
    (dec bytes).bind fun xr =>
      (decodeCount dec n xr.2).bind fun ysr =>
        some (xr.1 :: ysr.1, ysr.2)

/-- Decoding of a `Vec<T>`: read the `u64` count, then that many
elements. -/
def decodeListWith {α : Type} (dec : List Nat → Option (α × List Nat))
    (bytes : List Nat) : Option (List α × List Nat) :=
  (decodeU64LE bytes).bind fun nr => decodeCount dec nr.1 nr.2

/-- Serialization of a `ChunkData`, the byte stream
`bincode::serialize` produces in `save_chunk_data`: the four fields in
declaration order — `tiles`, `heights`, `decorations`, `modified`. -/
def encodeChunkData (d : ChunkData) : List Nat :=
  encodeListWith encodeOptU8 d.tiles ++ encodeListWith encodeF32LE d.heights ++
    encodeListWith encodeOptU8 d.decorations ++ encodeBool d.modified

/-- Deserialization of a `ChunkData`, as `bincode::deserialize` in
`load_chunk_data`: the four fields in declaration order; any
malformed prefix fails. -/
def decodeChunkData (bytes : List Nat) : Option (ChunkData × List Nat) :=
  (decodeListWith decodeOptU8 bytes).bind fun tiles =>
    (decodeListWith decodeF32LE tiles.2).bind fun heights =>
      (decodeListWith decodeOptU8 heights.2).bind fun decorations =>
        (decodeBool decorations.2).bind fun modified =>
          some (⟨tiles.1, heights.1, decorations.1, modified.1⟩, modified.2)

/-- One pass of the dequeue loop of `process_loading_queue` in
`chunk_loader.rs`:
`while loaded_count < load_budget && !loading_queue.is_empty()`
pops the LAST element of the queue (`Vec::pop`), spawns a chunk entity
for it and counts it.  The first component of the result is the list of
dequeued (materialized) coordinates in dequeue order; the second is the
remaining queue.  The recursion is on the remaining budget, exactly the
loop's `loaded_count < load_budget` bound. -/
def processLoadingQueue : Nat → List ChunkCoord → List ChunkCoord × List ChunkCoord
  | 0, queue => ([], queue)
  | budget + 1, queue =>
    match queue.getLast? with
    | none => ([], queue)
    | some coord =>
      let rest := processLoadingQueue budget queue.dropLast
      (coord :: rest.1, rest.2)

/-- Coordinate materialized first in a tick: the head of the dequeue
order produced by `process_loading_queue`. -/
def firstDequeued (budget : Nat) (queue : List ChunkCoord) : Option ChunkCoord :=
  (processLoadingQueue budget queue).1.head?

/-- Stable insertion of an element into a list sorted ascending by
`key`, placing the new element after existing elements with an equal
key.  Used to model `Vec::sort_by_key`, which is a stable ascending
sort. -/
def insertByKey (key : ChunkCoord → Int) (c : ChunkCoord) :
    List ChunkCoord → List ChunkCoord
  | [] => [c]
  | d :: ds =>
    if key d ≤ key c then d :: insertByKey key c ds
    else c :: d :: ds

/-- Stable ascending sort by key, modelling `Vec::sort_by_key`. -/
def sortByKey (key : ChunkCoord → Int) : List ChunkCoord → List ChunkCoord
  | [] => []
  | c :: cs => insertByKey key c (sortByKey key cs)

/-- Sort key used on the loading queue at the end of
`update_loading_priorities` in `chunk_loader.rs`: `-priority` for a
queued coordinate whose chunk entity is resident in the `chunks` table,
`0` otherwise ("负号使高优先级排在前面" — the negation puts high
priority at the front of the sorted vector). -/
def loadingQueueSortKey (priorityOf : ChunkCoord → Option Int) (c : ChunkCoord) : Int :=
  match priorityOf c with
  | some p => -p
  | none => 0

/-- Loading-queue sort from `update_loading_priorities`:
`loading_queue.sort_by_key(...)` with the key above. -/
def sortLoadingQueue (priorityOf : ChunkCoord → Option Int)
    (queue : List ChunkCoord) : List ChunkCoord :=
  sortByKey (loadingQueueSortKey priorityOf) queue

/-- Priority computed for a queued coordinate by
`update_loading_priorities` in `chunk_loader.rs` (lines 205-220):
`dx`/`dy` are the absolute coordinate differences to the player chunk,
`distance = (dx*dx + dy*dy) as f32`,
`base_priority = 1000.0 / (distance + 1.0)`,
`time_bonus = 1.0 + (waiting_time * 0.1) as f32`,
`priority = (base_priority * time_bonus) as i32`. -/
def update_loading_priority (player coord : ChunkCoord) (waiting_time : Rat) : Int :=
  let dx : Int := (coord.x - player.x).natAbs
  let dy : Int := (coord.y - player.y).natAbs
  let distance : Rat := ((dx * dx + dy * dy : Int) : Rat)
  let base_priority : Rat := 1000 / (distance + 1)
  let time_bonus : Rat := 1 + waiting_time * (1 / 10)
  ratTruncToInt (base_priority * time_bonus)

/-- Modelled from the spec's words, for comparison with
`update_loading_priority`: `base = 1000 / (manhattan_distance_to_viewpoint
+ 1)`, `time_bonus = 1 + waiting_time_seconds * 0.1`,
`priority = base * time_bonus` (integer-truncated). -/
def priority_spec_formula (player coord : ChunkCoord) (waiting_time : Rat) : Int :=
  let base : Rat := 1000 / ((manhattan_distance coord player : Rat) + 1)
  let time_bonus : Rat := 1 + waiting_time * (1 / 10)
  ratTruncToInt (base * time_bonus)

/-- Concrete priority table for the C2 counterexample scenario: queued
coordinate `(0,0)` has chunk priority `10`, queued coordinate `(5,5)`
has chunk priority `5` (both resident in the `chunks` table). -/
def examplePriorityTable : ChunkCoord → Option Int := fun c =>
  if c = ⟨0, 0⟩ then some 10 else if c = ⟨5, 5⟩ then some 5 else none

/-- Unload-candidate computation from `ChunkManager::get_chunks_to_unload`
in `chunk_manager.rs`: a resident coordinate is marked for unload when
`dx > view_distance || dy > view_distance` with
`dx = (coord.x - player_chunk.x).abs()` (Chebyshev test, not manhattan).
The resident `chunks` table is modelled as the list of resident
coordinates. -/
def get_chunks_to_unload (chunks : List ChunkCoord) (player_chunk : ChunkCoord)
    (view_distance : Int) : List ChunkCoord :=
  chunks.filter fun coord =>
    decide (((coord.x - player_chunk.x).natAbs : Int) > view_distance) ||
    decide (((coord.y - player_chunk.y).natAbs : Int) > view_distance)

/-- Eviction condition of `cleanup_inactive_chunks` in `chunk_loader.rs`:
a resident chunk is pushed onto `chunks_to_unload` when
`chunks.len() > memory_budget || inactive_time > 30.0 ||
distance > view_distance * 2` (with `distance` the manhattan distance to
the player chunk and `inactive_time = current_time - last_accessed`). -/
def shouldUnloadInactive (resident_count memory_budget : Nat) (inactive_time : Rat)
    (distance view_distance : Int) : Prop :=
  resident_count > memory_budget ∨ inactive_time > 30 ∨ distance > view_distance * 2

/-- Season, from `climate/season.rs`. -/
inductive Season where
  | Spring
  | Summer
  | Autumn
  | Winter
deriving DecidableEq, Repr

/-- Climate parameters, from `ClimateParams` in
`climate/climate_params.rs`. -/
structure ClimateParams where
  temperature_scale : Rat
  temperature_offset : Rat
  moisture_scale : Rat
  moisture_offset : Rat
  altitude_temperature_factor : Rat
  latitude_temperature_factor : Rat
  latitude_moisture_factor : Rat

/-- Association-list model of `bevy`'s `HashMap` keyed by `(i32, i32)`:
lookup returns the value of the first (most recent) binding. -/
def cacheLookup {α : Type} (cache : List ((Int × Int) × α)) (k : Int × Int) : Option α :=
  (cache.find? fun e => decide (e.1 = k)).map fun e => e.2

/-- Insertion into the association-list cache model (`HashMap::insert`):
the new binding shadows any older one. -/
def cacheInsert {α : Type} (cache : List ((Int × Int) × α)) (k : Int × Int) (v : α) :
    List ((Int × Int) × α) :=
  (k, v) :: cache

/-- Climate system state, from `System` in `climate/system.rs`.  The two
`Perlin` samplers are external library code, modelled as arbitrary
functions from the sampled `[f64; 2]` point to the noise value. -/
structure ClimateSystem where
  params : ClimateParams
  temperature_noise : Rat → Rat → Rat
  moisture_noise : Rat → Rat → Rat
  current_season : Season
  climate_cache : List ((Int × Int) × (Rat × Rat))
  seed : Nat

namespace ClimateSystem

/-- Moisture computation, from `System::calculate_moisture`: base
moisture noise at `0.015` frequency, latitude and season modifiers, a
water-proximity noise term, scale/offset, then clamping to `[0, 1]` via
`moisture.min(1.0).max(0.0)`. -/
def calculate_moisture (s : ClimateSystem) (x y : Int) : Rat :=
  let nx := (x : Rat) * (15 / 1000)
  let ny := (y : Rat) * (15 / 1000)
  let base_moisture := s.moisture_noise nx ny
  let world_height : Rat := 10000
  let latitude_factor := min ((y : Rat) / world_height) 1
  let latitude_effect := (1 - latitude_factor) * s.params.latitude_moisture_factor
  let season_effect : Rat :=
    match s.current_season with
    | .Summer => -(1 / 10)
    | .Spring => 2 / 10
    | .Autumn => 1 / 10
    | .Winter => -(2 / 10)
  let water_nx := (x : Rat) * (5 / 1000)
  let water_ny := (y : Rat) * (5 / 1000)
  let water_proximity := (s.moisture_noise water_nx water_ny + 1) * (1 / 2)
  let water_effect := water_proximity * (3 / 10)
  let moisture :=
    ((base_moisture + 1) * (1 / 2) + latitude_effect + season_effect + water_effect) *
        s.params.moisture_scale +
      s.params.moisture_offset
  max (min moisture 1) 0

/-- Temperature query, from `System::get_temperature`.  On a cache hit
the cached temperature is returned.  On a miss the temperature is
computed (base noise, latitude, season and simulated-altitude modifiers,
scale/offset, clamp to `[0, 1]`), the moisture is computed alongside it,
and — exactly as in the source — the `(temperature, moisture)` pair is
inserted into a CLONE of `climate_cache` that is immediately discarded
(`let mut cache = self.climate_cache.clone(); cache.insert(...)`; the
method takes `&self` and cannot mutate).  The returned second component
is the resulting system state. -/
def get_temperature (s : ClimateSystem) (x y : Int) : Rat × ClimateSystem :=
  match cacheLookup s.climate_cache (x, y) with
  | some (temp, _) => (temp, s)
  | none =>
    let nx := (x : Rat) * (2 / 100)
    let ny := (y : Rat) * (2 / 100)
    let base_temperature := s.temperature_noise nx ny
    let world_height : Rat := 10000
    let latitude_factor := min ((y : Rat) / world_height) 1
    let latitude_effect := (1 - latitude_factor) * s.params.latitude_temperature_factor
    let season_effect : Rat :=
      match s.current_season with
      | .Summer => 2 / 10
      | .Spring => 0
      | .Autumn => 0
      | .Winter => -(2 / 10)
    let alt_nx := (x : Rat) * (1 / 100)
    let alt_ny := (y : Rat) * (1 / 100)
    let simulated_height := (s.temperature_noise alt_nx alt_ny + 1) * (1 / 2)
    let altitude_effect := -simulated_height * s.params.altitude_temperature_factor
    let temperature :=
      ((base_temperature + 1) * (1 / 2) + latitude_effect + season_effect + altitude_effect) *
          s.params.temperature_scale +
        s.params.temperature_offset
    let normalized_temp := max (min temperature 1) 0
    let moisture := s.calculate_moisture x y
    let _cache := cacheInsert s.climate_cache (x, y) (normalized_temp, moisture)
    (normalized_temp, s)

end ClimateSystem

/-- Tile types, from `TileType` in `tile/tile_type.rs`. -/
inductive TileType where
  | Empty
  | Ground
  | Wall
  | Water
  | Grass
  | Sand
  | Rock
  | Snow
  | Forest
  | Path
  | Plains
  | Wasteland
  | Bamboo
  | DenseForest
  | Mountain
deriving DecidableEq, Repr

/-- Discretized terrain-height band, from `TerrainHeight` in
`environment.rs`. -/
inductive TerrainHeight where
  | Valley
  | Plain
  | Hill
  | Mountain
  | Peak
deriving DecidableEq, Repr

/-- Per-position environment bundle, from `EnvironmentParams` in
`environment.rs`. -/
structure EnvironmentParams where
  height : Rat
  temperature : Rat
  moisture : Rat
  terrain_type : TerrainHeight

/-- Base tile classification of `MapGenerator::generate_tile` in
`map_generator.rs` (the `match env.terrain_type` block, before the water
override). -/
def base_tile_type (env : EnvironmentParams) : TileType :=
  match env.terrain_type with
  | .Valley => if env.moisture > 7 / 10 then .Water else .Ground
  | .Plain => if env.moisture > 6 / 10 then .Grass else .Ground
  | .Hill => if env.moisture > 5 / 10 then .Forest else .Grass
  | .Mountain => if env.temperature < 3 / 10 then .Snow else .Rock
  | .Peak => .Rock

/-- Tile-type computation of `MapGenerator::generate_tile`: the base
classification, overridden to `Water` when `water.has_water_at(x, y)`
holds. -/
def generate_tile_type (env : EnvironmentParams) (has_water : Bool) : TileType :=
  if has_water then .Water else base_tile_type env

/-- Noise wrapper, from `MapNoise` in `map_noise.rs`.  The wrapped
`Perlin` sampler is external library code, modelled as an arbitrary
function of the sampled point. -/
structure MapNoise where
  noise : Rat → Rat → Rat
  scale : Rat
  offset : Rat

/-- Single-point noise query, from `MapNoise::get`:
`(noise(x*scale, y*scale) + 1.0) * 0.5 * scale + offset`. -/
def MapNoise.get (n : MapNoise) (x y : Rat) : Rat :=
  let nx := x * n.scale
  let ny := y * n.scale
  let noise_val := n.noise nx ny
  (noise_val + 1) * (1 / 2) * n.scale + n.offset

/-- River generation parameters, from `River` in `water/river.rs`. -/
structure River where
  min_width : Int
  max_width : Int
  meandering : Rat
  branch_probability : Rat
  max_branches : Int

/-- Lake generation parameters, from `Lake` in `water/lake.rs`. -/
structure Lake where
  frequency : Rat
  min_size : Int
  max_size : Int
  depth_variation : Rat
  shore_complexity : Rat

/-- Waterfall parameters and generated waterfall value, from `Waterfall`
in `water/waterfall.rs` (`position` is a `Vec2`, modelled as a pair). -/
structure Waterfall where
  position : Rat × Rat
  min_height : Rat
  max_height : Rat
  min_slope : Rat
  flow_strength : Rat
  splash_range : Rat
deriving DecidableEq, Repr

/-- Backend for the `f32` planar geometry used by `WaterManager`
(external `bevy`/`std` code): `fromAngle` models `Vec2::from_angle`
(cosine/sine pair of the angle), `toAngle` models `Vec2::to_angle`,
`norm` models `Vec2::length`, and `pi` is the `f32` value
`std::f32::consts::PI`. -/
structure Geom where
  pi : Rat
  fromAngle : Rat → Rat × Rat
  toAngle : Rat × Rat → Rat
  norm : Rat × Rat → Rat

/-- Water system state, from `WaterManager` in
`water/water_manager.rs`.  `perlin` models the sampler of
`Perlin::new(seed)` used by `has_water_at`. -/
structure WaterManager where
  river_params : River
  lake_params : Lake
  waterfall_params : Waterfall
  seed : Nat
  water_cache : List ((Int × Int) × Bool)
  perlin : Rat → Rat → Rat

namespace WaterManager

/-- Water-presence query, from `WaterManager::has_water_at`: answer from
the cache when present; otherwise sample
`MapNoise::new(seed, 0.02, 0.0)` at `(x*0.02, y*0.02)` and test
`value < -0.4`.  As in the source, the computed answer is inserted into
a CLONE of `water_cache` that is immediately discarded
(`let mut cache_map = self.water_cache.clone(); cache_map.insert(...)`;
the method takes `&self`). -/
def has_water_at (wm : WaterManager) (x y : Int) : Bool :=
  match cacheLookup wm.water_cache (x, y) with
  | some b => b
  | none =>
    let noise : MapNoise := ⟨wm.perlin, 2 / 100, 0⟩
    let nx := (x : Rat) * (2 / 100)
    let ny := (y : Rat) * (2 / 100)
    let value := noise.get nx ny
    let has_water := decide (value < -(2 / 5))
    let _cache_map := cacheInsert wm.water_cache (x, y) has_water
    has_water

/-- Validity test for a river point, from
`WaterManager::is_valid_river_point`: the truncated coordinates must lie
inside the chunk, the derived index inside the height map, and the
height inside the river band `[0.1, 0.8]`
(`min_river_height`/`max_river_height`). -/
def is_valid_river_point (_wm : WaterManager) (pos : Rat × Rat) (height_map : List Rat)
    (chunk_size : Int) : Bool :=
  let x := ratTruncToInt pos.1
  let y := ratTruncToInt pos.2
  if x < 0 ∨ x ≥ chunk_size ∨ y < 0 ∨ y ≥ chunk_size then false
  else
    let index := y * chunk_size + x
    if index < 0 ∨ height_map.length ≤ index.toNat then false
    else
      let height := height_map.getD index.toNat 0
      decide (1 / 10 ≤ height) && decide (height ≤ 8 / 10)

/-- Height lookup, from `WaterManager::get_height_at`: `0.0` outside the
valid river region, otherwise `height_map[y*chunk_size + x]` with the
index guarded once more. -/
def get_height_at (wm : WaterManager) (pos : Rat × Rat) (height_map : List Rat)
    (chunk_size : Int) : Rat :=
  let x := ratTruncToInt pos.1
  let y := ratTruncToInt pos.2
  if ¬ wm.is_valid_river_point pos height_map chunk_size then 0
  else
    let index := y * chunk_size + x
    if 0 ≤ index ∧ index.toNat < height_map.length then height_map.getD index.toNat 0
    else 0

/-- Steepest-descent flow direction, from
`WaterManager::calculate_flow_angle`: scan the 8 compass offsets
`Vec2::from_angle(i * PI/4)`, skip those leaving the chunk, track the
direction of the lowest neighbouring height (default direction
`(0, 1)`), and return its `to_angle`. -/
def calculate_flow_angle (g : Geom) (wm : WaterManager) (pos : Rat × Rat)
    (height_map : List Rat) (chunk_size : Int) : Rat :=
  let current_height := wm.get_height_at pos height_map chunk_size
  let result := (List.range 8).foldl
    (fun acc i =>
      let angle := (i : Rat) * g.pi / 4
      let offset := g.fromAngle angle
      let check_pos := (pos.1 + offset.1, pos.2 + offset.2)
      if check_pos.1 < 0 ∨ check_pos.1 ≥ (chunk_size : Rat) ∨
          check_pos.2 < 0 ∨ check_pos.2 ≥ (chunk_size : Rat) then acc
      else
        let height := wm.get_height_at check_pos height_map chunk_size
        if height < acc.1 then (height, offset) else acc)
    (current_height, ((0 : Rat), (1 : Rat)))
  g.toAngle result.2

/-- Local slope, from `WaterManager::calculate_slope`: maximum over the
8 compass offsets of `|current_height - next_height| / offset.length()`,
then `(max_slope / 2.0).min(1.0)`. -/
def calculate_slope (g : Geom) (wm : WaterManager) (position : Rat × Rat)
    (height_map : List Rat) (chunk_size : Int) : Rat :=
  let current_height := wm.get_height_at position height_map chunk_size
  let max_slope := (List.range 8).foldl
    (fun acc i =>
      let angle := (i : Rat) * g.pi / 4
      let offset := g.fromAngle angle
      let next_pos := (position.1 + offset.1, position.2 + offset.2)
      let next_height := wm.get_height_at next_pos height_map chunk_size
      let height_diff := |current_height - next_height|
      let slope := height_diff / g.norm offset
      max acc slope)
    0
  min (max_slope / 2) 1

/-- Downhill height drop, from
`WaterManager::calculate_height_difference`: height at the position
minus the height two steps along the flow direction, clamped at `0`. -/
def calculate_height_difference (g : Geom) (wm : WaterManager) (position : Rat × Rat)
    (height_map : List Rat) (chunk_size : Int) : Rat :=
  let current_height := wm.get_height_at position height_map chunk_size
  let flow_angle := wm.calculate_flow_angle g position height_map chunk_size
  let dir := g.fromAngle flow_angle
  let downstream_pos := (position.1 + dir.1 * 2, position.2 + dir.2 * 2)
  let downstream_height := wm.get_height_at downstream_pos height_map chunk_size
  max (current_height - downstream_height) 0

/-- Waterfall classification, from `WaterManager::generate_waterfall`:
`None` when `slope < min_slope`, else `None` when
`height_diff < min_height`, else a `Waterfall` whose flow strength is
`flow_strength * (min(height_diff, max_height) / max_height)`. -/
def generate_waterfall (g : Geom) (wm : WaterManager) (position : Rat × Rat)
    (height_map : List Rat) (chunk_size : Int) : Option Waterfall :=
  let slope := wm.calculate_slope g position height_map chunk_size
  if slope < wm.waterfall_params.min_slope then none
  else
    let height_diff := wm.calculate_height_difference g position height_map chunk_size
    if height_diff < wm.waterfall_params.min_height then none
    else
      let height := min height_diff wm.waterfall_params.max_height
      let flow_strength :=
        wm.waterfall_params.flow_strength * (height / wm.waterfall_params.max_height)
      some
        { position := position
          min_height := wm.waterfall_params.min_height
          max_height := wm.waterfall_params.max_height
          min_slope := wm.waterfall_params.min_slope
          flow_strength := flow_strength
          splash_range := wm.waterfall_params.splash_range }

end WaterManager

/-- Concrete water manager used by witnesses and counterexamples: empty
cache, constantly zero Perlin sampler, wuxia-style parameters
(`WaterManager::wuxia_style`). -/
def wmWitness : WaterManager :=
  { river_params := ⟨2, 5, 2 / 5, 1 / 5, 3⟩
    lake_params := ⟨8 / 100, 8, 20, 3 / 10, 1 / 2⟩
    waterfall_params := ⟨(0, 0), 3 / 2, 8, 7 / 10, 3 / 2, 3⟩
    seed := 12345
    water_cache := []
    perlin := fun _ _ => 0 }

/-- Explicit model of the `rand::thread_rng()` draw streams consumed by
river generation: `floats` is the stream of values returned by the
`f32` draws (`gen::<f32>()` and `gen_range` over float ranges), `ints`
the stream returned by the integer `gen_range` draws, in call order.
`thread_rng` is seeded by the OS per process/thread, so these streams
are NOT a function of the world seed or of the call's inputs. -/
structure Rng where
  floats : List Rat
  ints : List Int

/-- Consume one float draw (head of the stream, `0` when exhausted). -/
def Rng.nextF : Rng → Rat × Rng
  | ⟨[], is⟩ => (0, ⟨[], is⟩)
  | ⟨f :: fs, is⟩ => (f, ⟨fs, is⟩)

/-- Consume one integer draw (head of the stream, `0` when
exhausted). -/
def Rng.nextI : Rng → Int × Rng
  | ⟨fs, []⟩ => (0, ⟨fs, []⟩)
  | ⟨fs, i :: is⟩ => (i, ⟨fs, is⟩)

/-- Loop body of `WaterManager::generate_branch`
(`while path.len() < branch_length && is_valid_river_point(current)`):
push the current point, then step by `step_size` along
`from_angle(flow*0.7 + branch_angle*0.3 + meander)` where the meander is
one float draw from `gen_range(-meandering_factor..=meandering_factor)`.
The fuel argument is the remaining `branch_length - path.len()`: each
iteration pushes exactly one point. -/
def branchStep (g : Geom) (wm : WaterManager) (height_map : List Rat) (chunk_size : Int)
    (branch_angle branch_width step_size : Rat) :
    Nat → (Rat × Rat) → Rng → List (Rat × Rat) → List (Rat × Rat) × Rng
  | 0, _, rng, path => (path, rng)
  | fuel + 1, current, rng, path =>
    if wm.is_valid_river_point current height_map chunk_size then
      let path := path ++ [current]
      let flow_angle := wm.calculate_flow_angle g current height_map chunk_size
      let _meandering_factor := wm.river_params.meandering *
        (1 + ((wm.river_params.max_width : Rat) - branch_width) /
          (wm.river_params.max_width : Rat))
      let m := rng.nextF
      let combined_angle := flow_angle * (7 / 10) + branch_angle * (3 / 10) + m.1
      let offset := g.fromAngle combined_angle
      let next := (current.1 + offset.1 * step_size, current.2 + offset.2 * step_size)
      branchStep g wm height_map chunk_size branch_angle branch_width step_size
        fuel next m.2 path
    else (path, rng)

/-- River-branch generation, from `WaterManager::generate_branch`: draw
the branch angle (`gen_range(0.0..TAU)`) and the branch width
(`gen_range(min_width..=max_width/2)`), derive
`step_size = 0.5 + branch_width/5.0` and
`branch_length = (max_width*3) * (0.5 + branch_width/max_width)`
(truncated), then walk as above. -/
def generate_branch (g : Geom) (wm : WaterManager) (start : Rat × Rat)
    (height_map : List Rat) (chunk_size : Int) (rng : Rng) : List (Rat × Rat) × Rng :=
  let max_length := (wm.river_params.max_width * 3).toNat
  let a := rng.nextF
  let b := a.2.nextI
  let branch_width : Rat := (b.1 : Rat)
  let step_size : Rat := 1 / 2 + branch_width / 5
  let branch_length := ratTruncToNat
    ((max_length : Rat) * (1 / 2 + branch_width / (wm.river_params.max_width : Rat)))
  branchStep g wm height_map chunk_size a.1 branch_width step_size branch_length start b.2 []

/-- Branch-spawning loop of `WaterManager::generate_river`
(`for _ in 0..branches_count { path.extend(generate_branch(...)) }`). -/
def branchesLoop (g : Geom) (wm : WaterManager) (height_map : List Rat) (chunk_size : Int) :
    Nat → (Rat × Rat) → Rng → List (Rat × Rat) → List (Rat × Rat) × Rng
  | 0, _, rng, path => (path, rng)
  | n + 1, current, rng, path =>
    let bp := generate_branch g wm current height_map chunk_size rng
    branchesLoop g wm height_map chunk_size n current bp.2 (path ++ bp.1)

/-- Main loop of `WaterManager::generate_river`
(`while path.len() < max_length`): push the current point, step one unit
along `from_angle(flow_angle + meander)` (one float draw), stop when the
new point leaves the valid river region, otherwise spawn
`gen_range(1..=max_branches)` branches with probability
`branch_probability` (one float draw, plus one integer draw when it
fires).  The fuel starts at the source's `max_length = 100`; every
iteration grows the path by at least one point, so fuel exhaustion
coincides with the `path.len() < max_length` loop bound. -/
def riverStep (g : Geom) (wm : WaterManager) (height_map : List Rat) (chunk_size : Int) :
    Nat → (Rat × Rat) → Rng → List (Rat × Rat) → List (Rat × Rat)
  | 0, _, _, path => path
  | fuel + 1, current, rng, path =>
    if 100 ≤ path.length then path
    else
      let path := path ++ [current]
      let flow_angle := wm.calculate_flow_angle g current height_map chunk_size
      let m := rng.nextF
      let offset := g.fromAngle (flow_angle + m.1)
      let next := (current.1 + offset.1 * 1, current.2 + offset.2 * 1)
      if ¬ wm.is_valid_river_point next height_map chunk_size then path
      else
        let b := m.2.nextF
        if b.1 < wm.river_params.branch_probability then
          let cnt := b.2.nextI
          let ext := branchesLoop g wm height_map chunk_size cnt.1.toNat next cnt.2 path
          riverStep g wm height_map chunk_size fuel next ext.2 ext.1
        else riverStep g wm height_map chunk_size fuel next b.2 path

/-- River generation, from `WaterManager::generate_river`, with the
`thread_rng()` draws made explicit as the `rng` stream argument. -/
def generate_river (g : Geom) (wm : WaterManager) (start : Rat × Rat)
    (height_map : List Rat) (chunk_size : Int) (rng : Rng) : List (Rat × Rat) :=
  riverStep g wm height_map chunk_size 100 start rng []

/-- Concrete geometry backend for the C3 counterexample: an angle `a`
maps to the vector `(1, a)`, every vector has `to_angle` `0` and length
`1`. -/
def geomC3 : Geom :=
  { pi := 22 / 7
    fromAngle := fun a => (1, a)
    toAngle := fun _ => 0
    norm := fun _ => 1 }

/-- Height map for the C3 counterexample: a 2×2 chunk whose four cells
all have height `0.5`, inside the valid river band. -/
def riverHeights : List Rat := [1 / 2, 1 / 2, 1 / 2, 1 / 2]

/-- Concrete geometry backend for witnesses and counterexamples: every
angle maps to the unit vector `(1, 0)` (of length `1`), every vector to
angle `0`. -/
def geomConst : Geom :=
  { pi := 22 / 7
    fromAngle := fun _ => (1, 0)
    toAngle := fun _ => 0
    norm := fun _ => 1 }

/-- Water manager used by the C9 witness: degenerate thresholds
(`min_slope = min_height = -1`) so that the waterfall branch is taken at
the all-zero degenerate input. -/
def wmWaterfall : WaterManager :=
  { river_params := ⟨2, 5, 2 / 5, 1 / 5, 3⟩
    lake_params := ⟨8 / 100, 8, 20, 3 / 10, 1 / 2⟩
    waterfall_params := ⟨(0, 0), -1, 1, -1, 1, 2⟩
    seed := 12345
    water_cache := []
    perlin := fun _ _ => 0 }

/-- Concrete environment for the C4 witness: a moist valley, whose base
classification is `Water` only through the moisture rule, not through
the (dead) water override. -/
def envWitness : EnvironmentParams :=
  { height := 1 / 10, temperature := 1 / 2, moisture := 3 / 5, terrain_type := .Valley }

/-- Concrete chunk data for the C8 witness: two tiles, two `f32` bit
patterns (`0.0` and `1.0f32 = 0x3F800000`), one decoration, modified. -/
def chunkDataWitness : ChunkData :=
  { tiles := [none, some 3]
    heights := [0, 1065353216]
    decorations := [some 7]
    modified := true }

/-- C1: evaluation of the code at the failing input.  With the viewpoint
chunk at `(0,0)` and waiting time `0` (all arithmetic exact in `f32`),
the code assigns coordinate `(0,3)` priority `100`, not the
`250 = trunc(1000 / (3+1))` the claimed formula gives: the code computes
`distance` as `dx*dx + dy*dy`, not as the manhattan distance its own
comment announces.  Moreover monotonicity fails: `(0,3)` is manhattan
distance `3` from the viewpoint and `(2,2)` is `4`, yet `(0,3)` gets the
strictly smaller priority (`100 < 111`). -/
theorem update_loading_priority_squared_distance_bug :
    update_loading_priority ⟨0, 0⟩ ⟨0, 3⟩ 0 = 100 ∧
    priority_spec_formula ⟨0, 0⟩ ⟨0, 3⟩ 0 = 250 ∧
    manhattan_distance ⟨0, 3⟩ ⟨0, 0⟩ < manhattan_distance ⟨2, 2⟩ ⟨0, 0⟩ ∧
    update_loading_priority ⟨0, 0⟩ ⟨0, 3⟩ 0 < update_loading_priority ⟨0, 0⟩ ⟨2, 2⟩ 0 := by
  refine ⟨?_, ?_, by decide, ?_⟩ <;>
    norm_num [update_loading_priority, priority_spec_formula, ratTruncToInt,
      manhattan_distance, Rat.floor]

/-- C2: evaluation of the code at the failing input.  After the sort of
`update_loading_priorities` the queue is `[(0,0), (5,5)]` — descending
priority, highest first, as the code's comments state — but
`process_loading_queue` dequeues with `Vec::pop()`, which removes the
LAST element, so the first coordinate materialized is `(5,5)` with
priority `5` while `(0,0)` with the strictly higher priority `10` is
still queued: the first dequeued coordinate is the minimum-priority one,
not a maximum. -/
theorem process_loading_queue_pops_lowest_priority :
    sortLoadingQueue examplePriorityTable [⟨0, 0⟩, ⟨5, 5⟩] = [⟨0, 0⟩, ⟨5, 5⟩] ∧
    firstDequeued 2 (sortLoadingQueue examplePriorityTable [⟨0, 0⟩, ⟨5, 5⟩]) = some ⟨5, 5⟩ ∧
    examplePriorityTable ⟨5, 5⟩ = some 5 ∧
    examplePriorityTable ⟨0, 0⟩ = some 10 ∧
    (5 : Int) < 10 := by
  decide

/-- C6: in every single tick, at most `load_budget` coordinates are
removed from the loading queue and materialized as chunk entities: the
dequeue loop of `process_loading_queue` dequeues at most `budget`
coordinates, for every queue. -/
theorem process_loading_queue_respects_budget
    (budget : Nat) (queue : List ChunkCoord) :
    (processLoadingQueue budget queue).1.length ≤ budget := by
  induction budget generalizing queue with
  | zero => simp [processLoadingQueue]
  | succ n ih =>
    unfold processLoadingQueue
    cases h : queue.getLast? with
    | none => simp
    | some coord =>
      simpa using Nat.succ_le_succ (ih queue.dropLast)

/-- C7 counterexample: with `view_distance = 2`, viewpoint chunk `(0,0)`
and a single resident chunk `(3,0)` at manhattan distance exactly
`view_distance + 1`, that chunk IS returned by `get_chunks_to_unload`
(so the `ChunkLoaderSystem::process_chunk_loading` tick despawns it),
even though the cleanup pass would not evict it (resident count `1` is
within budget `100`, inactive time `0` is within 30 s, and its distance
does not exceed `2 * view_distance`). -/
theorem chunk_at_view_distance_plus_one_is_unloaded :
    manhattan_distance ⟨3, 0⟩ ⟨0, 0⟩ = 2 + 1 ∧
    get_chunks_to_unload [⟨3, 0⟩] ⟨0, 0⟩ 2 = [⟨3, 0⟩] ∧
    ¬ shouldUnloadInactive 1 100 0 (manhattan_distance ⟨3, 0⟩ ⟨0, 0⟩) 2 := by
  refine ⟨by decide, by decide, ?_⟩
  rintro (h | h | h)
  · exact absurd h (by decide)
  · norm_num at h
  · revert h
    decide

/-- C7 as amended: restricted to the `cleanup_inactive_chunks` eviction
pass and to `view_distance ≥ 1`, a resident chunk at manhattan distance
exactly `view_distance + 1` is not selected for eviction provided it was
accessed within the last 30 seconds and the resident count does not
exceed `memory_budget`, since `view_distance + 1 ≤ 2 * view_distance`
there (the separate `get_chunks_to_unload` path shown above is what
unloads such a chunk). -/
theorem cleanup_keeps_chunk_at_view_distance_plus_one
    (resident_count memory_budget : Nat) (inactive_time : Rat) (view_distance : Int)
    (hv : 1 ≤ view_distance) (hcount : resident_count ≤ memory_budget)
    (hactive : inactive_time ≤ 30) :
    ¬ shouldUnloadInactive resident_count memory_budget inactive_time
        (view_distance + 1) view_distance := by
  rintro (h | h | h)
  · exact absurd hcount (Nat.not_le.mpr h)
  · exact absurd hactive (not_le.mpr h)
  · omega

/-- Witness for the amended C7 at a concrete input: `view_distance = 5`,
one resident chunk within a budget of 100, accessed 0 seconds ago, at
manhattan distance 6. -/
theorem cleanup_keeps_chunk_at_view_distance_plus_one_witness :
    ¬ shouldUnloadInactive 1 100 0 (5 + 1) 5 :=
  cleanup_keeps_chunk_at_view_distance_plus_one 1 100 0 5
    (by decide) (by decide) (by simp)

/-- C5: evaluation of the code.  `System::get_temperature` never stores
the freshly computed `(temperature, moisture)` pair: the insert targets
a discarded clone of `climate_cache` and the method only has `&self`, so
the system state after the call — in particular the cache — is exactly
the state before it, for every state, position and season.  A subsequent
`get_temperature`/`get_moisture` for the same key therefore recomputes
instead of being answered from the cache. -/
theorem get_temperature_never_updates_cache (s : ClimateSystem) (x y : Int) :
    (s.get_temperature x y).2 = s := by
  unfold ClimateSystem.get_temperature
  cases cacheLookup s.climate_cache (x, y) with
  | none => rfl
  | some v => rfl

/-- C9: for every geometry backend, water manager state, position,
height map and chunk size, `generate_waterfall` returns `None` exactly
when the computed local slope is below `min_slope` or the downhill
height drop is below `min_height`; and when it returns a waterfall, both
preconditions hold and its flow strength is
`flow_strength * (min(height_drop, max_height) / max_height)`. -/
theorem generate_waterfall_none_iff_and_flow
    (g : Geom) (wm : WaterManager) (position : Rat × Rat)
    (height_map : List Rat) (chunk_size : Int) :
    (wm.generate_waterfall g position height_map chunk_size = none ↔
      wm.calculate_slope g position height_map chunk_size < wm.waterfall_params.min_slope ∨
      wm.calculate_height_difference g position height_map chunk_size <
        wm.waterfall_params.min_height) ∧
    (∀ w, wm.generate_waterfall g position height_map chunk_size = some w →
      ¬ wm.calculate_slope g position height_map chunk_size < wm.waterfall_params.min_slope ∧
      ¬ wm.calculate_height_difference g position height_map chunk_size <
          wm.waterfall_params.min_height ∧
      w.flow_strength = wm.waterfall_params.flow_strength *
        (min (wm.calculate_height_difference g position height_map chunk_size)
            wm.waterfall_params.max_height / wm.waterfall_params.max_height)) := by
  unfold WaterManager.generate_waterfall
  by_cases h1 :
      wm.calculate_slope g position height_map chunk_size < wm.waterfall_params.min_slope
  · simp [h1]
  · by_cases h2 :
        wm.calculate_height_difference g position height_map chunk_size <
          wm.waterfall_params.min_height
    · simp [h1, h2]
    · refine ⟨by simp [h1, h2], ?_⟩
      intro w hw
      simp only [if_neg h1, if_neg h2, Option.some.injEq] at hw
      exact ⟨h1, h2, by rw [← hw]⟩

/-- River point `(1.3, 0.3)` (cell `(1, 0)`, height `0.5`) is inside
the valid region of the C3 height map. -/
theorem riverPointA_valid :
    wmWitness.is_valid_river_point (13 / 10, 3 / 10) riverHeights 2 = true := by
  norm_num only [WaterManager.is_valid_river_point, ratTruncToInt, riverHeights,
    Bool.and_eq_true, decide_eq_true_eq, List.getD_cons_succ, List.getD_cons_zero,
    Int.toNat_ofNat, Int.toNat_one, if_false, if_true, List.length_cons, List.length_nil,
    or_false, false_or, or_true, true_or, and_self, show Int.toNat 2 = 2 from rfl]

/-- River point `(2.3, 0.3)` leaves the 2-cell-wide chunk, so it is not
a valid river point. -/
theorem riverPointA_exit :
    wmWitness.is_valid_river_point (23 / 10, 3 / 10) riverHeights 2 = false := by
  norm_num only [WaterManager.is_valid_river_point, ratTruncToInt, riverHeights,
    Bool.and_eq_true, decide_eq_true_eq, List.getD_cons_succ, List.getD_cons_zero,
    Int.toNat_ofNat, Int.toNat_one, if_false, if_true, List.length_cons, List.length_nil,
    or_false, false_or, or_true, true_or, and_self, show Int.toNat 2 = 2 from rfl]

/-- River point `(1.3, 0.5)` (cell `(1, 0)`, height `0.5`) is inside
the valid region of the C3 height map. -/
theorem riverPointB_valid :
    wmWitness.is_valid_river_point (13 / 10, 1 / 2) riverHeights 2 = true := by
  norm_num only [WaterManager.is_valid_river_point, ratTruncToInt, riverHeights,
    Bool.and_eq_true, decide_eq_true_eq, List.getD_cons_succ, List.getD_cons_zero,
    Int.toNat_ofNat, Int.toNat_one, if_false, if_true, List.length_cons, List.length_nil,
    or_false, false_or, or_true, true_or, and_self, show Int.toNat 2 = 2 from rfl]

/-- River point `(2.3, 0.5)` leaves the 2-cell-wide chunk, so it is not
a valid river point. -/
theorem riverPointB_exit :
    wmWitness.is_valid_river_point (23 / 10, 1 / 2) riverHeights 2 = false := by
  norm_num only [WaterManager.is_valid_river_point, ratTruncToInt, riverHeights,
    Bool.and_eq_true, decide_eq_true_eq, List.getD_cons_succ, List.getD_cons_zero,
    Int.toNat_ofNat, Int.toNat_one, if_false, if_true, List.length_cons, List.length_nil,
    or_false, false_or, or_true, true_or, and_self, show Int.toNat 2 = 2 from rfl]

/-- Branch probability of the wuxia-style river parameters. -/
theorem wmWitness_branch_probability :
    wmWitness.river_params.branch_probability = 1 / 5 := rfl

/-- C3: evaluation of the code at the failing input.  Two runs of
`generate_river` on IDENTICAL inputs (same manager with its seed, same
start `(0.3, 0.3)`, same height map, same chunk size `2`) but different
`thread_rng()` draw sequences — `0` versus `0.2` for the first meander
draw — produce different paths.  The path is therefore a function of the
OS-seeded `thread_rng()` stream, not of the seed and inputs, so two-run
determinism fails. -/
theorem generate_river_depends_on_thread_rng :
    generate_river geomC3 wmWitness (3 / 10, 3 / 10) riverHeights 2 ⟨[0, 1 / 2, 0], []⟩ ≠
      generate_river geomC3 wmWitness (3 / 10, 3 / 10) riverHeights 2 ⟨[1 / 5, 1 / 2, 0], []⟩ := by
  have hA : generate_river geomC3 wmWitness (3 / 10, 3 / 10) riverHeights 2 ⟨[0, 1 / 2, 0], []⟩ =
      [(3 / 10, 3 / 10), (13 / 10, 3 / 10)] := by
    unfold generate_river
    rw [riverStep]
    simp only [Rng.nextF, List.length_nil, List.nil_append]
    simp only [WaterManager.calculate_flow_angle, geomC3]
    norm_num only
    rw [riverPointA_valid, wmWitness_branch_probability]
    norm_num only [not_true, if_false]
    rw [riverStep]
    simp only [Rng.nextF, List.length_cons, List.length_nil]
    simp only [WaterManager.calculate_flow_angle, geomC3]
    norm_num only
    rw [riverPointA_exit]
    norm_num only [Bool.false_eq_true, not_false_iff, if_true, List.cons_append,
      List.nil_append]
    rw [if_neg not_false]
  have hB : generate_river geomC3 wmWitness (3 / 10, 3 / 10) riverHeights 2
      ⟨[1 / 5, 1 / 2, 0], []⟩ = [(3 / 10, 3 / 10), (13 / 10, 1 / 2)] := by
    unfold generate_river
    rw [riverStep]
    simp only [Rng.nextF, List.length_nil, List.nil_append]
    simp only [WaterManager.calculate_flow_angle, geomC3]
    norm_num only
    rw [riverPointB_valid, wmWitness_branch_probability]
    norm_num only [not_true, if_false]
    rw [riverStep]
    simp only [Rng.nextF, List.length_cons, List.length_nil]
    simp only [WaterManager.calculate_flow_angle, geomC3]
    norm_num only
    rw [riverPointB_exit]
    norm_num only [Bool.false_eq_true, not_false_iff, if_true, List.cons_append,
      List.nil_append]
    rw [if_neg not_false]
  rw [hA, hB]
  simp only [ne_eq, List.cons.injEq, Prod.mk.injEq, and_true, true_and]
  norm_num

/-- Accumulator lower bound for a left fold that can only grow the
accumulator. -/
theorem le_foldl_of_le (f : Rat → Nat → Rat) (hf : ∀ a i, a ≤ f a i) :
    ∀ (l : List Nat) (acc : Rat), acc ≤ l.foldl f acc := by
  intro l
  induction l with
  | nil => intro acc; simp
  | cons hd tl ih => intro acc; exact le_trans (hf acc hd) (ih (f acc hd))

/-- Waterfall generation at the degenerate witness input returns a
waterfall: the computed slope is at least `0 ≥ min_slope = -1` and the
computed height drop is at least `0 ≥ min_height = -1`. -/
theorem wmWaterfall_produces_some :
    ∃ w, WaterManager.generate_waterfall geomConst wmWaterfall ((0 : Rat), (0 : Rat)) [] 0 =
      some w := by
  have hs : ¬ WaterManager.calculate_slope geomConst wmWaterfall ((0 : Rat), (0 : Rat)) [] 0 <
      wmWaterfall.waterfall_params.min_slope := by
    have hms : wmWaterfall.waterfall_params.min_slope = -1 := rfl
    rw [hms, not_lt]
    unfold WaterManager.calculate_slope
    refine le_min ?_ (by norm_num)
    have h0 : (0 : Rat) ≤ (List.range 8).foldl
        (fun acc i =>
          let angle := (i : Rat) * geomConst.pi / 4
          let offset := geomConst.fromAngle angle
          let next_pos := (((0 : Rat), (0 : Rat)).1 + offset.1, ((0 : Rat), (0 : Rat)).2 + offset.2)
          let next_height := wmWaterfall.get_height_at next_pos [] 0
          let height_diff :=
            |wmWaterfall.get_height_at ((0 : Rat), (0 : Rat)) [] 0 - next_height|
          let slope := height_diff / geomConst.norm offset
          max acc slope)
        0 :=
      le_foldl_of_le _ (fun a i => le_max_left _ _) (List.range 8) 0
    have := div_nonneg h0 (by norm_num : (0 : Rat) ≤ 2)
    linarith
  have hd : ¬ WaterManager.calculate_height_difference geomConst wmWaterfall
      ((0 : Rat), (0 : Rat)) [] 0 < wmWaterfall.waterfall_params.min_height := by
    have hmh : wmWaterfall.waterfall_params.min_height = -1 := rfl
    rw [hmh, not_lt]
    unfold WaterManager.calculate_height_difference
    have h0 : (0 : Rat) ≤ max
        (wmWaterfall.get_height_at ((0 : Rat), (0 : Rat)) [] 0 -
          wmWaterfall.get_height_at
            (((0 : Rat), (0 : Rat)).1 +
                (geomConst.fromAngle
                  (wmWaterfall.calculate_flow_angle geomConst ((0 : Rat), (0 : Rat)) [] 0)).1 * 2,
              ((0 : Rat), (0 : Rat)).2 +
                (geomConst.fromAngle
                  (wmWaterfall.calculate_flow_angle geomConst ((0 : Rat), (0 : Rat)) [] 0)).2 * 2)
            [] 0)
        0 :=
      le_max_right _ 0
    linarith
  unfold WaterManager.generate_waterfall
  rw [if_neg hs, if_neg hd]
  exact ⟨_, rfl⟩

/-- Witness for C9 at a concrete input: applying
`generate_waterfall_none_iff_and_flow` at the degenerate input where a
waterfall is produced yields the claimed flow-strength formula. -/
theorem generate_waterfall_none_iff_and_flow_witness :
    ∃ w, WaterManager.generate_waterfall geomConst wmWaterfall ((0 : Rat), (0 : Rat)) [] 0 =
        some w ∧
      w.flow_strength = wmWaterfall.waterfall_params.flow_strength *
        (min (WaterManager.calculate_height_difference geomConst wmWaterfall
            ((0 : Rat), (0 : Rat)) [] 0)
          wmWaterfall.waterfall_params.max_height / wmWaterfall.waterfall_params.max_height) := by
  obtain ⟨w, hw⟩ := wmWaterfall_produces_some
  exact ⟨w, hw,
    ((generate_waterfall_none_iff_and_flow geomConst wmWaterfall ((0 : Rat), (0 : Rat)) [] 0).2
      w hw).2.2⟩

/-- C4: for every seed (every Perlin sampler within the library's
documented `[-1, 1]` output range), every coordinate whose answer is not
already cached (which is every reachable state: the cache is only ever
written through the discarded clone above), `has_water_at` returns
`false` — the sampled `MapNoise::get` value lies in
`[offset, offset + scale] = [0, 0.02]` and can never be below `-0.4` —
and consequently the water override in `MapGenerator::generate_tile`
never fires: the produced tile type is the base classification. -/
theorem has_water_at_always_false (wm : WaterManager) (x y : Int)
    (hperlin : ∀ a b, -1 ≤ wm.perlin a b ∧ wm.perlin a b ≤ 1)
    (hmiss : cacheLookup wm.water_cache (x, y) = none)
    (env : EnvironmentParams) :
    wm.has_water_at x y = false ∧
    generate_tile_type env (wm.has_water_at x y) = base_tile_type env := by
  have hfalse : wm.has_water_at x y = false := by
    unfold WaterManager.has_water_at
    rw [hmiss]
    simp only [MapNoise.get, decide_eq_false_iff_not, not_lt]
    have h1 := (hperlin ((x : Rat) * (2 / 100) * (2 / 100))
      ((y : Rat) * (2 / 100) * (2 / 100))).1
    nlinarith [h1]
  refine ⟨hfalse, ?_⟩
  rw [hfalse]
  rfl

/-- Witness for C4 at a concrete input: the zero sampler is within
`[-1, 1]`, the empty cache misses, and the theorem applies at
`(x, y) = (0, 0)`. -/
theorem has_water_at_always_false_witness :
    wmWitness.has_water_at 0 0 = false ∧
    generate_tile_type envWitness (wmWitness.has_water_at 0 0) = base_tile_type envWitness :=
  has_water_at_always_false wmWitness 0 0
    (fun _ _ => ⟨by simp [wmWitness], by simp [wmWitness]⟩) rfl envWitness

/-- Round trip of the 8-byte little-endian `u64` encoding, for any
in-range length and any trailing bytes. -/
theorem decodeU64LE_encodeU64LE (n : Nat) (h : n < 18446744073709551616)
    (rest : List Nat) : decodeU64LE (encodeU64LE n ++ rest) = some (n, rest) := by
  simp only [encodeU64LE, List.cons_append, List.nil_append, decodeU64LE,
    Option.some.injEq, Prod.mk.injEq, and_true]
  omega

/-- Round trip of the 4-byte little-endian `f32` bit-pattern encoding,
for any 32-bit pattern and any trailing bytes. -/
theorem decodeF32LE_encodeF32LE (n : Nat) (h : n < 4294967296)
    (rest : List Nat) : decodeF32LE (encodeF32LE n ++ rest) = some (n, rest) := by
  simp only [encodeF32LE, List.cons_append, List.nil_append, decodeF32LE,
    Option.some.injEq, Prod.mk.injEq, and_true]
  omega

/-- Round trip of the `Option<u8>` encoding. -/
theorem decodeOptU8_encodeOptU8 (o : Option Nat) (rest : List Nat) :
    decodeOptU8 (encodeOptU8 o ++ rest) = some (o, rest) := by
  cases o <;> rfl

/-- Round trip of the `bool` encoding. -/
theorem decodeBool_encodeBool (b : Bool) (rest : List Nat) :
    decodeBool (encodeBool b ++ rest) = some (b, rest) := by
  cases b <;> rfl

/-- Round trip of an element-count-directed decode against the
concatenated element encodings, given that every listed element round
trips. -/
theorem decodeCount_encode {α : Type} (enc : α → List Nat)
    (dec : List Nat → Option (α × List Nat)) (xs : List α)
    (hdec : ∀ x ∈ xs, ∀ rest, dec (enc x ++ rest) = some (x, rest)) (rest : List Nat) :
    decodeCount dec xs.length ((xs.map enc).flatten ++ rest) = some (xs, rest) := by
  induction xs generalizing rest with
  | nil => rfl
  | cons hd tl ih =>
    simp only [List.map_cons, List.flatten_cons, List.length_cons, List.append_assoc,
      decodeCount]
    rw [hdec hd (List.mem_cons_self hd tl)]
    simp only [Option.some_bind]
    rw [ih (fun x hx rest2 => hdec x (List.mem_cons_of_mem hd hx) rest2)]
    rfl

/-- Round trip of the `Vec<T>` encoding, given that every listed
element round trips and the length fits in a `u64`. -/
theorem decodeListWith_encodeListWith {α : Type} (enc : α → List Nat)
    (dec : List Nat → Option (α × List Nat)) (xs : List α)
    (hlen : xs.length < 18446744073709551616)
    (hdec : ∀ x ∈ xs, ∀ rest, dec (enc x ++ rest) = some (x, rest)) (rest : List Nat) :
    decodeListWith dec (encodeListWith enc xs ++ rest) = some (xs, rest) := by
  unfold encodeListWith decodeListWith
  rw [List.append_assoc, decodeU64LE_encodeU64LE xs.length hlen]
  simp only [Option.some_bind]
  exact decodeCount_encode enc dec xs hdec rest

/-- C8: for every `ChunkData` value — any tiles, heights, decorations
and modified flag, with the lengths representable as `u64` and each
height a 32-bit `f32` pattern, which every real `ChunkData` satisfies —
deserializing the serialized bytes yields the value back exactly. -/
theorem chunk_data_roundtrip (d : ChunkData)
    (htl : d.tiles.length < 18446744073709551616)
    (hhl : d.heights.length < 18446744073709551616)
    (hdl : d.decorations.length < 18446744073709551616)
    (hhv : ∀ v ∈ d.heights, v < 4294967296) :
    decodeChunkData (encodeChunkData d) = some (d, []) := by
  unfold encodeChunkData decodeChunkData
  rw [List.append_assoc, List.append_assoc]
  rw [decodeListWith_encodeListWith encodeOptU8 decodeOptU8 d.tiles htl
    (fun x _ rest => decodeOptU8_encodeOptU8 x rest)]
  simp only [Option.some_bind]
  rw [decodeListWith_encodeListWith encodeF32LE decodeF32LE d.heights hhl
    (fun x hx rest => decodeF32LE_encodeF32LE x (hhv x hx) rest)]
  simp only [Option.some_bind]
  rw [decodeListWith_encodeListWith encodeOptU8 decodeOptU8 d.decorations hdl
    (fun x _ rest => decodeOptU8_encodeOptU8 x rest)]
  simp only [Option.some_bind]
  rw [show encodeBool d.modified = encodeBool d.modified ++ [] from
    (List.append_nil _).symm, decodeBool_encodeBool d.modified []]
  rfl

/-- Witness for C8 at a concrete input: the concrete chunk data round
trips through the serializer. -/
theorem chunk_data_roundtrip_witness :
    decodeChunkData (encodeChunkData chunkDataWitness) = some (chunkDataWitness, []) :=
  chunk_data_roundtrip chunkDataWitness (by decide) (by decide) (by decide) (by decide)

/-- C10: out-of-bounds access into a chunk's local arrays does not
panic and is neutral: if `x ≥ CHUNK_SIZE` or `y ≥ CHUNK_SIZE` then
`get_tile` and `get_decoration` return `None`, `get_height` returns
`0.0`, and `set_tile`, `set_height`, `add_decoration` leave the
`ChunkData` unchanged. -/
theorem chunk_data_out_of_bounds_neutral
    (d : ChunkData) (x y : Nat) (t h dec : Nat)
    (hout : CHUNK_SIZE ≤ x ∨ CHUNK_SIZE ≤ y) :
    d.get_tile x y = none ∧
    d.get_height x y = 0 ∧
    d.get_decoration x y = none ∧
    d.set_tile x y t = d ∧
    d.set_height x y h = d ∧
    d.add_decoration x y dec = d := by
  have hcond : ¬(x < CHUNK_SIZE ∧ y < CHUNK_SIZE) := by
    rcases hout with hx | hy
    · exact fun hc => absurd hc.1 (Nat.not_lt.mpr hx)
    · exact fun hc => absurd hc.2 (Nat.not_lt.mpr hy)
  refine ⟨?_, ?_, ?_, ?_, ?_, ?_⟩ <;>
    simp [ChunkData.get_tile, ChunkData.get_height, ChunkData.get_decoration,
      ChunkData.set_tile, ChunkData.set_height, ChunkData.add_decoration, hcond]

/-- Witness for C10 at a concrete input: the fresh chunk data with
`x = 32`, `y = 0` is out of bounds and all six accessors/mutators are
neutral there. -/
theorem chunk_data_out_of_bounds_neutral_witness :
    ChunkData.new.get_tile 32 0 = none ∧
    ChunkData.new.get_height 32 0 = 0 ∧
    ChunkData.new.get_decoration 32 0 = none ∧
    ChunkData.new.set_tile 32 0 7 = ChunkData.new ∧
    ChunkData.new.set_height 32 0 5 = ChunkData.new ∧
    ChunkData.new.add_decoration 32 0 3 = ChunkData.new :=
  chunk_data_out_of_bounds_neutral ChunkData.new 32 0 7 5 3
    (Or.inl (by decide))
